import Mathlib

/-!
Verification development for the BeanO web crawler
(`src/data_collection/crawling/web_crawler.py`).

The Python source is shallowly embedded: Python strings are Lean `String`
values manipulated through their character lists, Python sets are
duplicate-free lists with a membership-guarded insert, the `requests` /
`urllib` / BeautifulSoup library calls are either ported (where their
behaviour is elementary), passed in as oracle parameters (the network
fetch, `urljoin`), or represented by the values they produce on the pages
under study.  Every definition is translated from the source function it
names; line numbers in the doc comments refer to `web_crawler.py`.
-/

set_option maxRecDepth 40000

namespace BeanO

/-! ### String helpers mirroring the Python string primitives -/

/-- Characters stripped by Python `str.strip()` (whitespace); the inputs in
this development are ASCII, for which `Char.isWhitespace` agrees with
Python's notion. -/
def trimCharsLeft (l : List Char) : List Char := l.dropWhile Char.isWhitespace

/-- Python `str.strip()`: remove leading and trailing whitespace. -/
def pyStrip (s : String) : String :=
  ⟨((trimCharsLeft s.data).reverse.dropWhile Char.isWhitespace).reverse⟩

/-- Python `str.startswith(pre)`. -/
def startsWithL (s pre : String) : Bool := pre.data.isPrefixOf s.data

/-- Substring test on character lists; `pat` empty counts as contained,
matching Python `pat in hay`. -/
def infixAux (pat : List Char) : List Char → Bool
  | [] => pat.isEmpty
  | c :: cs => pat.isPrefixOf (c :: cs) || infixAux pat cs

/-- Python `sub in s` for strings. -/
def strContains (s sub : String) : Bool := infixAux sub.data s.data

/-- Python `str.lower()` (ASCII case folding, which matches the inputs in
this development). -/
def strLower (s : String) : String := ⟨s.data.map Char.toLower⟩

/-- Splitter used by Python `str.split(sep)` for a non-empty separator.
The fuel argument is an upper bound on the number of steps; every call
consumes one unit while the scanned list shrinks by at least one
character, so `length + 1` fuel always suffices and the fuel-exhausted
branch is never reached at the call sites below. -/
def splitOnAuxL (sep : List Char) : Nat → List Char → List Char → List (List Char)
  | 0, l, acc => [acc.reverse ++ l]
  | _ + 1, [], acc => [acc.reverse]
  | n + 1, c :: cs, acc =>
    if sep.isPrefixOf (c :: cs) then
      acc.reverse :: splitOnAuxL sep n (List.drop sep.length (c :: cs)) []
    else
      splitOnAuxL sep n cs (c :: acc)

/-- Python `s.split(sep)` for a non-empty separator. -/
def pySplit (s sep : String) : List String :=
  (splitOnAuxL sep.data (s.data.length + 1) s.data []).map fun l => ⟨l⟩

/-- Python `s.count(sub)`: number of non-overlapping occurrences,
computed as `len(s.split(sub)) - 1`. -/
def countOcc (s sub : String) : Nat := (pySplit s sub).length - 1

/-- Python `s.find(sub)`: index of the first occurrence, `-1` if absent.
The index equals the length of the first piece of `s.split(sub)`. -/
def pyFind (s sub : String) : Int :=
  if strContains s sub then ((pySplit s sub).headD "").data.length else -1

/-- Python `s.rfind(sub)`: index of the last occurrence, `-1` if absent. -/
def pyRfind (s sub : String) : Int :=
  if strContains s sub then
    (s.data.length : Int) - ((pySplit s sub).getLastD "").data.length - sub.data.length
  else -1

/-- Python `s[i:]` for a non-negative index. -/
def sliceFrom (s : String) (i : Int) : String := ⟨s.data.drop i.toNat⟩

/-! ### URL parsing (the fragment of `urllib.parse.urlparse` exercised by
`_smart_url_join`: scheme and network location of an absolute URL, and the
path component used by the case-8 post-check) -/

structure UrlParts where
  scheme : String
  netloc : String
  path : String
  deriving Repr, DecidableEq

/-- Model of `urlparse` for the URLs that reach it in `_smart_url_join`:
the scheme is everything before the first `://`, the netloc runs to the
first `/`, `?` or `#`, and the path runs from there to the first `?` or
`#`.  A string without `://` has empty scheme and netloc and is all path,
as in `urlparse` for scheme-less inputs without a leading `//`. -/
def parseUrlParts (u : String) : UrlParts :=
  if strContains u "://" then
    let scheme := (pySplit u "://").headD ""
    let rest : String := ⟨u.data.drop (scheme.data.length + 3)⟩
    let netloc : List Char := rest.data.takeWhile fun c => c ≠ '/' && c ≠ '?' && c ≠ '#'
    let afterNetloc : List Char := rest.data.drop netloc.length
    let path : List Char := afterNetloc.takeWhile fun c => c ≠ '?' && c ≠ '#'
    { scheme := scheme, netloc := ⟨netloc⟩, path := ⟨path⟩ }
  else
    { scheme := "", netloc := "", path := ⟨u.data.takeWhile fun c => c ≠ '?' && c ≠ '#'⟩ }

/-- Replace the path of a parsed URL and reassemble it, the fragment of
`urlunparse(parsed._replace(path=...))` used at line 951 (query and
fragment are empty for every URL that reaches that line in this
development). -/
def unparseWithPath (p : UrlParts) (newPath : String) : String :=
  p.scheme ++ "://" ++ p.netloc ++ newPath

/-! ### `WebCrawler._smart_url_join` (lines 854-956) and its helper
`_looks_like_domain_url` (lines 984-1003) -/

/-- Port of `_looks_like_domain_url`: starts with `www.` or the base
domain, or has a `domain.tld`-shaped first path segment (contains a dot,
no space, longer than 3, none of the characters illegal in a domain). -/
def looks_like_domain_url (url base_domain : String) : Bool :=
  if startsWithL url "www." || startsWithL url base_domain then true
  else
    let first_part := (pySplit url "/").headD ""
    if strContains first_part "." && !(strContains first_part " ")
        && first_part.data.length > 3 then
      !(['(', ')', '"', '\'', '\\', ';'].any fun c => first_part.data.contains c)
    else false

/-- Port of `_smart_url_join`.  `urljoin` abstracts
`urllib.parse.urljoin` (case 8); it returns `none` where the library call
would raise, matching the `except` branch that returns `None`.  Each
`caseN` value is `some` exactly when the corresponding numbered branch of
the source returns, and the branches are tried in source order. -/
def smart_url_join (urljoin : String → String → Option String)
    (base_url potential_url : String) : Option String :=
  if potential_url.data.isEmpty || (pyStrip potential_url).data.isEmpty then none
  else
    let url := pyStrip potential_url
    let base := parseUrlParts base_url
    let base_domain := base.netloc
    -- Case 1: already absolute
    if startsWithL url "http://" || startsWithL url "https://" then some url
    -- Case 2: protocol-relative
    else if startsWithL url "//" then some (base.scheme ++ ":" ++ url)
    else
      -- Case 3: looks like a bare domain; defers to case 4 when the base
      -- domain occurs more than once (the `pass` branch)
      let case3 : Option String :=
        if looks_like_domain_url url base_domain then
          if countOcc url base_domain > 1 then none
          else if startsWithL url base_domain then
            some (base.scheme ++ "://" ++ url)
          else some ("https://" ++ url)
        else none
      -- Case 4: base domain occurs in the candidate (the candidate cannot
      -- start with http(s):// here, case 1 already returned)
      let case4 : Option String :=
        if strContains url base_domain then
          if countOcc url base_domain > 1 then
            let parts := pySplit url base_domain
            if parts.length ≥ 3 then
              some (base.scheme ++ "://" ++ (base_domain ++ parts.getLastD ""))
            else
              some (base.scheme ++ "://" ++ sliceFrom url (pyRfind url base_domain))
          else
            let domain_index := pyFind url base_domain
            if domain_index ≥ 0 then
              some (base.scheme ++ "://" ++ sliceFrom url domain_index)
            else none
        else none
      -- Case 5: domain occurs at a positive offset
      let case5 : Option String :=
        if strContains url base_domain && pyFind url base_domain > 0 then
          some (base.scheme ++ "://" ++ sliceFrom url (pyFind url base_domain))
        else none
      -- Case 6 and 7: fragment-only or query-only
      let case6 : Option String :=
        if startsWithL url "#" then some (base_url ++ url) else none
      let case7 : Option String :=
        if startsWithL url "?" then some (base_url ++ url) else none
      -- Case 8: standard relative resolution, then repair a duplicated
      -- domain in the resolved path (lines 937-953)
      let case8 : Option String :=
        match urljoin base_url url with
        | none => none
        | some result =>
          let result_parsed := parseUrlParts result
          let path := result_parsed.path
          if strContains path base_domain && countOcc path base_domain > 1 then
            let domain_parts := pySplit path base_domain
            if domain_parts.length > 2 then
              some (unparseWithPath result_parsed
                ("/" ++ (base_domain ++ domain_parts.getLastD "")))
            else some result
          else some result
      ((((case3.or case4).or case5).or case6).or case7).or case8

/-! ### Theorems for claims C4 and C8 -/

/-- C4: `smartJoin` with base `https://a.com` applied to
`www.a.com/x/www.a.com/x/y` (base domain occurring more than once) splits
on the domain substring, keeps only the content after the last occurrence
and returns `https://a.com/x/y`, whatever `urljoin` oracle is supplied
(the duplicated-domain branch returns before case 8 is consulted). -/
theorem c4_duplicated_domain_repair (urljoin : String → String → Option String) :
    smart_url_join urljoin "https://a.com" "www.a.com/x/www.a.com/x/y"
      = some "https://a.com/x/y" := by
  rfl

/-- C8 counterexample: the candidate `"https://a.com "` (trailing space)
starts with `https://`, yet `smartJoin` does not return it unchanged — it
returns the stripped `"https://a.com"`, because `_smart_url_join` strips
the candidate before case 1 (line 863). -/
theorem c8_counterexample :
    smart_url_join (fun _ u => some u) "https://a.com" "https://a.com "
      = some "https://a.com"
    ∧ ¬ smart_url_join (fun _ u => some u) "https://a.com" "https://a.com "
      = some "https://a.com " := by
  decide

/-- C8 amended: for every base URL and every candidate whose stripped form
starts with `http://` or `https://`, `smartJoin` returns the stripped
candidate; in particular a candidate without surrounding whitespace is
returned unchanged. -/
theorem c8_absolute_identity (urljoin : String → String → Option String)
    (base cand : String)
    (h : startsWithL (pyStrip cand) "http://" = true ∨
         startsWithL (pyStrip cand) "https://" = true) :
    smart_url_join urljoin base cand = some (pyStrip cand) := by
  have hne : (pyStrip cand).data.isEmpty = false := by
    rcases h with h | h <;>
    · cases hd : (pyStrip cand).data with
      | nil =>
        rw [startsWithL, hd] at h
        simp [List.isPrefixOf] at h
      | cons c cs => simp
  have hcne : cand.data.isEmpty = false := by
    cases hc : cand.data with
    | nil =>
      have : pyStrip cand = "" := by
        simp [pyStrip, trimCharsLeft, hc]
      rw [this] at hne
      simp [String.data] at hne
    | cons c cs => simp
  rw [smart_url_join]
  rw [hcne, hne]
  simp only [Bool.false_or, Bool.or_self, if_false, Bool.false_eq_true]
  rcases h with h | h
  · rw [h]
    simp
  · rw [h]
    simp

/-- Witness for `c8_absolute_identity` at the concrete input
`"https://a.com"` (no surrounding whitespace, so the identity is exact). -/
theorem c8_absolute_identity_witness :
    smart_url_join (fun _ u => some u) "https://x.org" "https://a.com"
      = some (pyStrip "https://a.com") :=
  c8_absolute_identity (fun _ u => some u) "https://x.org" "https://a.com"
    (Or.inr (by decide))

/-! ### JS-dependency detector: `detect_js_dependency` (lines 440-544) and
the two signal analyzers claims C3 and C9 cite, `_check_noscript_indicators`
(lines 546-570) and `_analyze_content_structure` (lines 572-618).  The
remaining five analyzers return result records consumed only through their
boolean flag and message payload; the scoring and decision logic is ported
over those records. -/

/-- Result record of `_check_noscript_indicators`. -/
structure NoscriptCheck where
  is_js_required : Bool
  message : String
  deriving Repr, DecidableEq

/-- The `strong_phrases` table of `_check_noscript_indicators`
(lines 554-562), in source order. -/
def strong_phrases : List String :=
  ["javascript is required", "enable javascript",
   "this site requires javascript", "javascript must be enabled",
   "turn on javascript", "javascript disabled", "js is disabled"]

/-- Port of `_check_noscript_indicators`: scan each noscript text in
document order, lowercase it, and return the first strong phrase it
contains; the argument is the list of `noscript.get_text()` values of the
page. -/
def check_noscript_indicators : List String → NoscriptCheck
  | [] => ⟨false, ""⟩
  | t :: rest =>
    match strong_phrases.find? (fun p => strContains (strLower t) p) with
    | some p => ⟨true, p⟩
    | none => check_noscript_indicators rest

/-- Result record of `_analyze_content_structure`. -/
structure ContentCheck where
  is_minimal_content : Bool
  reason : String
  deriving Repr, DecidableEq

/-- View of one `div`/`main`/`section` element whose class matches
`(app|root|container|content)`: its stripped text and the number of
descendant elements (`len(container.find_all())`). -/
structure ContainerView where
  text : String
  childCount : Nat
  deriving Repr, DecidableEq

/-- View of the page body as `_analyze_content_structure` sees it after
decomposing `script`/`style`/`meta`/`link`/`title`/`noscript` elements:
the stripped text content, `len(str(body))`, and the matching
app-containers. -/
structure BodyView where
  textContent : String
  htmlSize : Nat
  appContainers : List ContainerView
  deriving Repr, DecidableEq

/-- Word splitter of Python `str.split()` without argument: split on
whitespace runs, dropping empty pieces. -/
def wordsAux : List Char → List Char → List (List Char)
  | [], acc => if acc.isEmpty then [] else [acc.reverse]
  | c :: cs, acc =>
    if c.isWhitespace then
      if acc.isEmpty then wordsAux cs [] else acc.reverse :: wordsAux cs []
    else wordsAux cs (c :: acc)

/-- Number of words of a string, `len(s.split())`. -/
def wordCount (s : String) : Nat := (wordsAux s.data []).length

/-- Port of `_analyze_content_structure`; `none` is a page without a
`body` element.  The ratio test `len(text)/html_size < 0.05` is expressed
over naturals as `20 * len(text) < html_size` (with the `html_size = 0`
convention of the source, where the ratio defaults to `0`); the
percentage embedded in the source's ratio message is elided, which is
sound because no caller inspects that payload beyond the
`"Minimal content"` prefix added by `detect_js_dependency`. -/
def analyze_content_structure (body : Option BodyView) : ContentCheck :=
  match body with
  | none => ⟨true, "No body element found"⟩
  | some b =>
    let word_count := wordCount b.textContent
    let r0 : ContentCheck :=
      if word_count < 10 then
        ⟨true, "Very few words (" ++ toString word_count ++ ")"⟩
      else if word_count < 30 &&
          (if b.htmlSize > 0 then decide (20 * b.textContent.data.length < b.htmlSize)
           else true) then
        ⟨true, "Low content ratio"⟩
      else ⟨false, ""⟩
    if word_count < 100 &&
        b.appContainers.any (fun c => c.text = "" && c.childCount < 3) then
      ⟨true, "Empty main containers detected on a low-content page"⟩
    else r0

/-- Result record of `_detect_spa_frameworks`; `frameworks` is the
rendering of the detected framework list. -/
structure FrameworkCheck where
  has_spa_framework : Bool
  frameworks : String
  deriving Repr, DecidableEq

/-- Result record of `_check_spa_patterns`. -/
structure SpaRootCheck where
  has_spa_root : Bool
  pattern : String
  deriving Repr, DecidableEq

/-- Result record of `_check_loading_indicators`; `types` renders the
collected indicator list. -/
structure LoadingCheck where
  has_loading_indicators : Bool
  types : String
  deriving Repr, DecidableEq

/-- Result record of `_check_client_routing_patterns`; `evidence` renders
the collected evidence list. -/
structure RoutingCheck where
  has_client_routing : Bool
  evidence : String
  deriving Repr, DecidableEq

/-- Result record of `_analyze_javascript_presence`. -/
structure HeavyJsCheck where
  is_js_heavy : Bool
  reason : String
  deriving Repr, DecidableEq

/-- Result record of `_check_static_site_indicators`; `reduction` is the
accumulated score reduction (0, 5, 10, 15, 20, 25, 30 or 35). -/
structure StaticCheck where
  has_static_patterns : Bool
  reduction : Nat
  deriving Repr, DecidableEq

/-- The eight signal-analyzer results `detect_js_dependency` computes on
a parsed page (lines 460-511). -/
structure JsSignals where
  noscript : NoscriptCheck
  content : ContentCheck
  framework : FrameworkCheck
  spaRoot : SpaRootCheck
  loading : LoadingCheck
  routing : RoutingCheck
  heavyJs : HeavyJsCheck
  staticSite : StaticCheck
  deriving Repr, DecidableEq

/-- The accumulated weighted score of `detect_js_dependency`
(lines 453-510): +40 noscript, +35 minimal content, +25 SPA framework,
+20 SPA root, +15 loading indicators, +10 client routing, +8 heavy JS,
minus the static-pattern reduction. -/
def jsScore (sig : JsSignals) : Int :=
  (if sig.noscript.is_js_required then 40 else 0)
  + (if sig.content.is_minimal_content then 35 else 0)
  + (if sig.framework.has_spa_framework then 25 else 0)
  + (if sig.spaRoot.has_spa_root then 20 else 0)
  + (if sig.loading.has_loading_indicators then 15 else 0)
  + (if sig.routing.has_client_routing then 10 else 0)
  + (if sig.heavyJs.is_js_heavy then 8 else 0)
  - (if sig.staticSite.has_static_patterns then (sig.staticSite.reduction : Int) else 0)

/-- The evidence list of `detect_js_dependency`, with the exact f-string
prefixes of lines 463-511, in append order. -/
def jsEvidence (sig : JsSignals) : List String :=
  (if sig.noscript.is_js_required then
     ["Strong noscript indicator: " ++ sig.noscript.message] else [])
  ++ (if sig.content.is_minimal_content then
     ["Minimal content: " ++ sig.content.reason] else [])
  ++ (if sig.framework.has_spa_framework then
     ["SPA framework detected: " ++ sig.framework.frameworks] else [])
  ++ (if sig.spaRoot.has_spa_root then
     ["SPA root pattern: " ++ sig.spaRoot.pattern] else [])
  ++ (if sig.loading.has_loading_indicators then
     ["Loading indicators: " ++ sig.loading.types] else [])
  ++ (if sig.routing.has_client_routing then
     ["Client routing: " ++ sig.routing.evidence] else [])
  ++ (if sig.heavyJs.is_js_heavy then
     ["Heavy JS: " ++ sig.heavyJs.reason] else [])
  ++ (if sig.staticSite.has_static_patterns then
     ["Static patterns detected: -" ++ toString sig.staticSite.reduction ++ " points"]
     else [])

/-- The check of line 529: some evidence entry contains `"Strong noscript"`
or `"Minimal content"` as a substring. -/
def hasStrongIndicator (evs : List String) : Bool :=
  evs.any fun ev => strContains ev "Strong noscript" || strContains ev "Minimal content"

/-- The three JS-detection threshold fields of `CrawlConfig`
(lines 51-53), with their defaults. -/
structure JsDetectionCfg where
  min_score : Int := 45
  conservative_score : Int := 30
  strict_mode : Bool := false
  deriving Repr, DecidableEq

/-- The verdict of `detect_js_dependency`; the source returns only the
boolean and keeps `confidence` in a local variable (used for logging),
modeled here as a second field. -/
structure JsVerdict where
  is_js_dependent : Bool
  confidence : String
  deriving Repr, DecidableEq

/-- Port of the if/elif decision chain of `detect_js_dependency`
(lines 519-534), over the already strict-mode-adjusted minimum score, the
conservative score, the strong-indicator flag of line 529 and the
accumulated score. -/
def jsDecisionCore (min_score conservative : Int) (strongB : Bool)
    (score : Int) : JsVerdict :=
  if score ≥ min_score then
    ⟨true, if score ≥ min_score + 15 then "high" else "medium"⟩
  else if score ≥ conservative ∧ strongB = true then
    ⟨true, "medium"⟩
  else if score ≥ 70 then
    ⟨true, "very_high"⟩
  else
    ⟨false, "low"⟩

/-- Port of `detect_js_dependency` (lines 440-544): compute the weighted
score and the evidence list from the signal-analyzer results, raise the
minimum score by 15 in strict mode (line 524), and run the decision
chain. -/
def detect_js_dependency (cfg : JsDetectionCfg) (sig : JsSignals) : JsVerdict :=
  jsDecisionCore (cfg.min_score + (if cfg.strict_mode then 15 else 0))
    cfg.conservative_score (hasStrongIndicator (jsEvidence sig)) (jsScore sig)

/-- Case analysis of the decision chain: the verdict is true exactly on
the disjunction of the three threshold conditions, and each branch's
confidence label is as in the source. -/
theorem jsDecisionCore_spec (ms cons : Int) (strongB : Bool) (sc : Int) :
    ((jsDecisionCore ms cons strongB sc).is_js_dependent = true ↔
      (sc ≥ ms ∨ (sc ≥ cons ∧ strongB = true) ∨ sc ≥ 70))
    ∧ (sc ≥ ms → sc ≥ ms + 15 →
        (jsDecisionCore ms cons strongB sc).confidence = "high")
    ∧ (sc ≥ ms → ¬ sc ≥ ms + 15 →
        (jsDecisionCore ms cons strongB sc).confidence = "medium")
    ∧ (¬ sc ≥ ms → sc ≥ cons → strongB = true →
        (jsDecisionCore ms cons strongB sc).confidence = "medium")
    ∧ (¬ sc ≥ ms → ¬ (sc ≥ cons ∧ strongB = true) → sc ≥ 70 →
        (jsDecisionCore ms cons strongB sc).confidence = "very_high")
    ∧ (¬ sc ≥ ms → ¬ (sc ≥ cons ∧ strongB = true) → ¬ sc ≥ 70 →
        (jsDecisionCore ms cons strongB sc).is_js_dependent = false
        ∧ (jsDecisionCore ms cons strongB sc).confidence = "low") := by
  unfold jsDecisionCore
  split_ifs with h1 h2 h3 h4 <;>
    refine ⟨?_, ?_, ?_, ?_, ?_, ?_⟩ <;> intros <;>
    first
      | rfl
      | tauto

/-- C3: for every signal outcome and configuration, the detector returns
true exactly when the score reaches the (strict-mode-adjusted) minimum
score, or reaches the conservative score with a strong-noscript or
minimal-content entry in the evidence, or reaches 70; and the confidence
is high/medium in the first branch (high from `minScore + 15` on), medium
in the second, very_high in the third, with false/low otherwise. -/
theorem c3_decision_thresholds (cfg : JsDetectionCfg) (sig : JsSignals) :
    ((detect_js_dependency cfg sig).is_js_dependent = true ↔
      (jsScore sig ≥ cfg.min_score + (if cfg.strict_mode then 15 else 0)
       ∨ (jsScore sig ≥ cfg.conservative_score
          ∧ hasStrongIndicator (jsEvidence sig) = true)
       ∨ jsScore sig ≥ 70))
    ∧ (jsScore sig ≥ cfg.min_score + (if cfg.strict_mode then 15 else 0) →
        jsScore sig ≥ cfg.min_score + (if cfg.strict_mode then 15 else 0) + 15 →
        (detect_js_dependency cfg sig).confidence = "high")
    ∧ (jsScore sig ≥ cfg.min_score + (if cfg.strict_mode then 15 else 0) →
        ¬ jsScore sig ≥ cfg.min_score + (if cfg.strict_mode then 15 else 0) + 15 →
        (detect_js_dependency cfg sig).confidence = "medium")
    ∧ (¬ jsScore sig ≥ cfg.min_score + (if cfg.strict_mode then 15 else 0) →
        jsScore sig ≥ cfg.conservative_score →
        hasStrongIndicator (jsEvidence sig) = true →
        (detect_js_dependency cfg sig).confidence = "medium")
    ∧ (¬ jsScore sig ≥ cfg.min_score + (if cfg.strict_mode then 15 else 0) →
        ¬ (jsScore sig ≥ cfg.conservative_score
           ∧ hasStrongIndicator (jsEvidence sig) = true) →
        jsScore sig ≥ 70 →
        (detect_js_dependency cfg sig).confidence = "very_high")
    ∧ (¬ jsScore sig ≥ cfg.min_score + (if cfg.strict_mode then 15 else 0) →
        ¬ (jsScore sig ≥ cfg.conservative_score
           ∧ hasStrongIndicator (jsEvidence sig) = true) →
        ¬ jsScore sig ≥ 70 →
        (detect_js_dependency cfg sig).is_js_dependent = false
        ∧ (detect_js_dependency cfg sig).confidence = "low") :=
  jsDecisionCore_spec (cfg.min_score + (if cfg.strict_mode then 15 else 0))
    cfg.conservative_score (hasStrongIndicator (jsEvidence sig)) (jsScore sig)

/-- Signal outcome used to witness `c3_decision_thresholds`: noscript and
minimal-content evidence only, score 75. -/
def sigDemo : JsSignals :=
  { noscript := ⟨true, "enable javascript"⟩
    content := ⟨true, "Very few words (0)"⟩
    framework := ⟨false, ""⟩
    spaRoot := ⟨false, ""⟩
    loading := ⟨false, ""⟩
    routing := ⟨false, ""⟩
    heavyJs := ⟨false, ""⟩
    staticSite := ⟨false, 0⟩ }

/-- Witness for `c3_decision_thresholds` at the default configuration and
the concrete signal outcome `sigDemo` (score 75 reaches the minimum
score 45). -/
theorem c3_decision_thresholds_witness :
    (detect_js_dependency {} sigDemo).is_js_dependent = true :=
  ((c3_decision_thresholds {} sigDemo).1).mpr (Or.inl (by decide))

/-! ### Claim C9: the noscript-only page -/

/-- The `noscript.get_text()` values of the C9 page
`<html><body><noscript>Enable JavaScript to view this site</noscript></body></html>`. -/
def c9NoscriptTexts : List String := ["Enable JavaScript to view this site"]

/-- The body view of the C9 page: after `_analyze_content_structure`
decomposes the `noscript` element the body text is empty,
`len(str(body))` is the length of `<body></body>`, and there are no
app-containers. -/
def c9Body : BodyView := { textContent := "", htmlSize := 13, appContainers := [] }

/-- Signal outcomes of the C9 page: the noscript and content analyzers
are evaluated on the page's data; the page has no scripts, SPA markers,
loading classes, routing evidence or static-site patterns, so the other
five analyzers return their no-evidence records. -/
def c9Signals : JsSignals :=
  { noscript := check_noscript_indicators c9NoscriptTexts
    content := analyze_content_structure (some c9Body)
    framework := ⟨false, ""⟩
    spaRoot := ⟨false, ""⟩
    loading := ⟨false, ""⟩
    routing := ⟨false, ""⟩
    heavyJs := ⟨false, ""⟩
    staticSite := ⟨false, 0⟩ }

/-- C9: on a page whose body is only
`<noscript>Enable JavaScript to view this site</noscript>`, the detector
with default thresholds returns `isJsDependent = true` and the evidence
contains the strong-noscript indicator (the matched phrase is
`enable javascript`). -/
theorem c9_noscript_only_page :
    (detect_js_dependency {} c9Signals).is_js_dependent = true
    ∧ "Strong noscript indicator: enable javascript" ∈ jsEvidence c9Signals := by
  decide

/-! ### Structured-data merger:
`StructuredDataExtractor.extract_structured_data` (lines 173-215) and
`intelligent_fallback_parse` (lines 314-343).  The JSON-LD payloads,
microdata items and product records are opaque to the merge logic, so
they are type parameters; the sub-extractor calls of lines 192, 198,
204-205 and 210 are represented by their results. -/

/-- The dict literal built by `intelligent_fallback_parse` (lines
316-320): keys `menu_items`, `products`, `organization`. -/
structure FallbackData (π : Type) where
  menu_items : List π
  products : List π
  organization : List (String × String)
  deriving Repr, DecidableEq

/-- Port of `intelligent_fallback_parse`: start from the three-key dict
literal, append every product the selector scan yields (the `productsFound`
argument is that sequence of results), and set `organization` when
`extract_organization_info` returned a non-empty dict (line 340's
truthiness test). -/
def intelligent_fallback_parse (π : Type) (productsFound : List π)
    (orgInfo : List (String × String)) : FallbackData π :=
  { menu_items := []
    products := productsFound
    organization := if orgInfo.isEmpty then [] else orgInfo }

/-- Python truthiness of the value `intelligent_fallback_parse` returns,
tested by `if fallback_data:` at line 211: the dict always carries its
three keys `menu_items`, `products` and `organization` (they are created
by the literal at lines 316-320 and never deleted), and `bool` of a dict
is `True` exactly when its key count is positive — so the test is `True`
however empty the values are. -/
def fallbackIsTruthy (π : Type) (_ : FallbackData π) : Bool := true

/-- The merged bundle built by `extract_structured_data`
(lines 175-184). -/
structure StructuredDataBundle (ι μ π : Type) where
  json_ld : List ι
  microdata : List μ
  meta_tags : List (String × String)
  opengraph : List (String × String)
  menu_items : List π
  products : List π
  organization : List (String × String)
  extraction_methods : List String
  deriving Repr, DecidableEq

/-- Port of `extract_structured_data`: the five stages run in priority
order; list/dict truthiness tests are non-emptiness checks.  The
arguments are the intercepted JSON-LD (line 187), and the results of
`extract_json_ld`, `extract_microdata`, `extract_meta_tags`,
`extract_opengraph` and `intelligent_fallback_parse` on the page. -/
def extract_structured_data {ι μ π : Type} (intercepted pageJsonLd : List ι)
    (microdata : List μ) (meta_tags opengraph : List (String × String))
    (fallback : FallbackData π) : StructuredDataBundle ι μ π :=
  let json_ld : List ι := []
  let methods : List String := []
  -- Priority 1: intercepted JSON-LD (lines 187-189)
  let st1 : List ι × List String :=
    if intercepted.isEmpty then (json_ld, methods)
    else (json_ld ++ intercepted, methods ++ ["intercepted_json_ld"])
  -- Priority 2: JSON-LD from the page source (lines 192-195)
  let st2 : List ι × List String :=
    if pageJsonLd.isEmpty then st1
    else (st1.1 ++ pageJsonLd, st1.2 ++ ["page_json_ld"])
  -- Priority 3: microdata (lines 198-201)
  let st3 : List μ × List String :=
    if microdata.isEmpty then ([], st2.2)
    else (microdata, st2.2 ++ ["microdata"])
  -- Priority 4: meta tags and OpenGraph (lines 204-207)
  let st4 : List String :=
    if meta_tags.isEmpty && opengraph.isEmpty then st3.2
    else st3.2 ++ ["meta_tags"]
  -- Priority 5: intelligent fallback (lines 210-213)
  let st5 : FallbackData π × List String :=
    if fallbackIsTruthy π fallback then (fallback, st4 ++ ["intelligent_fallback"])
    else (⟨[], [], []⟩, st4)
  { json_ld := st2.1
    microdata := st3.1
    meta_tags := meta_tags
    opengraph := opengraph
    menu_items := st5.1.menu_items
    products := st5.1.products
    organization := st5.1.organization
    extraction_methods := st5.2 }

/-- C7: in the merged bundle the intercepted JSON-LD entries come first
in `jsonLd` and the embedded-JSON-LD pass only appends after them — for
every pair of payload lists the field equals `intercepted ++ embedded`,
so earlier-stage data is never modified or overwritten by a later
stage. -/
theorem c7_intercepted_json_ld_first {ι μ π : Type}
    (intercepted pageJsonLd : List ι) (microdata : List μ)
    (meta_tags opengraph : List (String × String)) (fallback : FallbackData π) :
    (extract_structured_data intercepted pageJsonLd microdata
      meta_tags opengraph fallback).json_ld = intercepted ++ pageJsonLd := by
  unfold extract_structured_data
  cases hi : intercepted <;> cases hp : pageJsonLd <;> simp [List.isEmpty]

/-- C2 evaluation: on a page where every extractor comes back empty —
in particular the DOM-heuristic fallback finds no products and no
organization info — the merger still records `intelligent_fallback` in
`extractionMethods`, because `if fallback_data:` at line 211 tests the
truthiness of a dict that always has three keys.  The first conjunct
shows the fallback parse yielded no data; the last shows the method tag
is recorded anyway (and is the only one). -/
theorem c2_fallback_method_always_recorded :
    intelligent_fallback_parse Nat [] [] = ⟨[], [], []⟩
    ∧ (extract_structured_data ([] : List Nat) [] ([] : List Nat) [] []
        (intelligent_fallback_parse Nat [] [])).products = []
    ∧ (extract_structured_data ([] : List Nat) [] ([] : List Nat) [] []
        (intelligent_fallback_parse Nat [] [])).organization = []
    ∧ (extract_structured_data ([] : List Nat) [] ([] : List Nat) [] []
        (intelligent_fallback_parse Nat [] [])).extraction_methods
      = ["intelligent_fallback"] := by
  decide

/-! ### Frontier/Orchestrator: `crawl_website` (lines 1774-1908).

URLs are an arbitrary type with decidable equality (the loop never
inspects their text).  Python sets are duplicate-free lists with a
membership-guarded insert; the redirect-cache dict is an association
list with assign-or-replace insert.  The network is an oracle
`fetch : α → FetchOutcome α` giving, per URL, the redirect recorded by
`_fetch_static_content` (line 1702) and the result of `_fetch_page`
(`none` covering both a `None` return and an exception at the
`future.result()` call of line 1823 — every URL is dispatched at most
once, so a per-URL function loses no generality).  The nondeterministic
batch choice of `list(urls_to_visit)[:max_workers]` (line 1806) and the
`as_completed` completion order (line 1818) are captured by the step
relation `CrawlStep`, which quantifies over the ordered batch; the
executable `crawlLoop` runs the same body with the queue in insertion
order, one admissible schedule. -/

section Crawl

variable {α : Type} [DecidableEq α]

/-- Python `set.add`: append unless already present. -/
def listInsert (x : α) (l : List α) : List α := if x ∈ l then l else l ++ [x]

/-- Python dict assignment `cache[k] = v` on an association list. -/
def cacheInsert (k v : α) (c : List (α × α)) : List (α × α) :=
  if c.any (fun p => p.1 = k) then
    c.map fun p => if p.1 = k then (k, v) else p
  else c ++ [(k, v)]

/-- Python dict lookup `cache.get(k)` on an association list. -/
def cacheLookup (c : List (α × α)) (k : α) : Option α :=
  (c.find? fun p => p.1 = k).map (·.2)

/-- The fields of a `_fetch_page` result the crawl loop reads: the final
URL (`page_data['url']`) and the extracted links (`page_data['links']`).
The remaining fields (title, html, structured data, ...) are carried
along in the source but never influence the frontier. -/
structure PageData (α : Type) where
  url : α
  links : List α
  deriving Repr, DecidableEq

/-- Outcome of fetching one URL: the redirect target recorded in the
redirect cache by `_fetch_static_content` when the response URL differs
(line 1702, written even when the fetch subsequently fails), and the
`_fetch_page` result (`none` = failure). -/
structure FetchOutcome (α : Type) where
  redirectTo : Option α
  page : Option (PageData α)
  deriving Repr, DecidableEq

/-- The mutable crawl state of `crawl_website` (lines 1787-1791 plus the
crawler's redirect cache). -/
structure CrawlState (α : Type) where
  visited : List α
  queue : List α
  pages : List (PageData α)
  allLinks : List α
  failed : List α
  cache : List (α × α)
  deriving Repr, DecidableEq

/-- The two configuration fields the loop reads (`max_pages`,
`max_workers`). -/
structure CrawlCfg where
  maxPages : Nat
  maxWorkers : Nat
  deriving Repr, DecidableEq

/-- Initial state: the queue seeded with the start URL (line 1788; with
the default `normalize_urls = False` the normalization of line 1784 is
the identity, so the start URL is taken already normalized). -/
def initState (start : α) : CrawlState α :=
  { visited := [], queue := [start], pages := [], allLinks := [],
    failed := [], cache := [] }

/-- Per-link body of lines 1837-1860: record the link in `all_links`;
if it is unvisited, unfailed and the page cap is not reached, suppress it
when the redirect cache knows it as the target of a visited URL,
otherwise enqueue it unless already queued. -/
def processLink (cfg : CrawlCfg) (st : CrawlState α) (link : α) : CrawlState α :=
  let st := { st with allLinks := listInsert link st.allLinks }
  if link ∉ st.visited ∧ link ∉ st.failed ∧ st.visited.length < cfg.maxPages then
    if (¬ ∃ p ∈ st.cache, link = p.2 ∧ p.1 ∈ st.visited) ∧ link ∉ st.queue then
      { st with queue := st.queue ++ [link] }
    else st
  else st

/-- Handling of one completed future (lines 1818-1874): mark the
dispatched URL visited, make the fetch task's redirect-cache write
visible, then either record the page (also marking a differing final URL
visited) and run the link loop, or mark the URL failed. -/
def processResult (fetch : α → FetchOutcome α) (cfg : CrawlCfg)
    (st : CrawlState α) (u : α) : CrawlState α :=
  let st := { st with visited := listInsert u st.visited }
  let st := match (fetch u).redirectTo with
    | some r => { st with cache := cacheInsert u r st.cache }
    | none => st
  match (fetch u).page with
  | none => { st with failed := listInsert u st.failed }
  | some page =>
    let st := { st with pages := st.pages ++ [page] }
    let st := if page.url ≠ u then
        { st with visited := listInsert page.url st.visited }
      else st
    page.links.foldl (processLink cfg) st

/-- One batch (lines 1806-1874): remove the batch from the queue, submit
the batch members that are neither visited nor failed (the filter of
line 1815, evaluated against the pre-batch state), and process their
results in batch order. -/
def processBatch (fetch : α → FetchOutcome α) (cfg : CrawlCfg)
    (st : CrawlState α) (batch : List α) : CrawlState α :=
  let dispatched := batch.filter fun u => decide (u ∉ st.visited ∧ u ∉ st.failed)
  dispatched.foldl (processResult fetch cfg)
    { st with queue := st.queue.filter fun u => decide (u ∉ batch) }

/-- The `while` guard of line 1804: queue non-empty and strictly fewer
visited URLs than `max_pages`. -/
def loopGuard (cfg : CrawlCfg) (st : CrawlState α) : Prop :=
  st.queue ≠ [] ∧ st.visited.length < cfg.maxPages

instance (cfg : CrawlCfg) (st : CrawlState α) : Decidable (loopGuard cfg st) := by
  unfold loopGuard; infer_instance

/-- The crawl loop, fuel-indexed: each unit of fuel allows one guarded
batch iteration; once the guard is false the state is returned unchanged,
so any sufficiently large fuel yields the loop's result (witnessed in the
theorems below by a `¬ loopGuard` conjunct on the returned state). -/
def crawlLoop (fetch : α → FetchOutcome α) (cfg : CrawlCfg) :
    Nat → CrawlState α → CrawlState α
  | 0, st => st
  | n + 1, st =>
    if loopGuard cfg st then
      crawlLoop fetch cfg n (processBatch fetch cfg st (st.queue.take cfg.maxWorkers))
    else st

/-- One iteration of the `while` loop as a relation: under the guard,
some duplicate-free batch of `min |queue| maxWorkers` queue members is
drawn (in an arbitrary order, covering both the arbitrary set-iteration
order of line 1806 and the `as_completed` order of line 1818) and
processed. -/
def CrawlStep (fetch : α → FetchOutcome α) (cfg : CrawlCfg)
    (s s' : CrawlState α) : Prop :=
  loopGuard cfg s ∧
  ∃ batch : List α, batch.Nodup ∧ (∀ u ∈ batch, u ∈ s.queue) ∧
    batch.length = min s.queue.length cfg.maxWorkers ∧
    s' = processBatch fetch cfg s batch

/-- States reachable by the crawl loop from the seeded initial state. -/
def Reachable (fetch : α → FetchOutcome α) (cfg : CrawlCfg) (start : α)
    (s : CrawlState α) : Prop :=
  Relation.ReflTransGen (CrawlStep fetch cfg) (initState start) s

/-- The statistics block of lines 1880-1884; `coverage` models the
source's `coverage_ratio = pages_crawled / max(total_unique_links, 1)`. -/
structure CrawlerStats where
  pages_crawled : Nat
  urls_failed : Nat
  total_unique_links : Nat
  coverage : ℚ
  deriving Repr, DecidableEq

/-- Build the final statistics from the terminal state. -/
def mkStats (st : CrawlState α) : CrawlerStats :=
  { pages_crawled := st.pages.length
    urls_failed := st.failed.length
    total_unique_links := st.allLinks.length
    coverage := (st.pages.length : ℚ) / (max st.allLinks.length 1 : ℕ) }

/-! #### Basic lemmas about the loop body -/

theorem mem_listInsert_self (x : α) (l : List α) : x ∈ listInsert x l := by
  unfold listInsert; split_ifs with h
  · exact h
  · simp

theorem mem_listInsert {x y : α} {l : List α} (h : y ∈ l) : y ∈ listInsert x l := by
  unfold listInsert; split_ifs <;> simp [h]

theorem mem_of_mem_listInsert {x y : α} {l : List α}
    (h : y ∈ listInsert x l) : y = x ∨ y ∈ l := by
  unfold listInsert at h; split_ifs at h with hx
  · exact Or.inr h
  · rcases List.mem_append.1 h with h | h
    · exact Or.inr h
    · simp at h; exact Or.inl h

theorem processLink_visited (cfg : CrawlCfg) (st : CrawlState α) (l : α) :
    (processLink cfg st l).visited = st.visited := by
  simp only [processLink]; split_ifs <;> rfl

theorem processLink_failed (cfg : CrawlCfg) (st : CrawlState α) (l : α) :
    (processLink cfg st l).failed = st.failed := by
  simp only [processLink]; split_ifs <;> rfl

theorem processLink_cache (cfg : CrawlCfg) (st : CrawlState α) (l : α) :
    (processLink cfg st l).cache = st.cache := by
  simp only [processLink]; split_ifs <;> rfl

theorem processLink_pages (cfg : CrawlCfg) (st : CrawlState α) (l : α) :
    (processLink cfg st l).pages = st.pages := by
  simp only [processLink]; split_ifs <;> rfl

theorem foldl_processLink_visited (cfg : CrawlCfg) (links : List α)
    (st : CrawlState α) :
    (links.foldl (processLink cfg) st).visited = st.visited := by
  induction links generalizing st with
  | nil => rfl
  | cons l ls ih => rw [List.foldl_cons, ih, processLink_visited]

theorem foldl_processLink_failed (cfg : CrawlCfg) (links : List α)
    (st : CrawlState α) :
    (links.foldl (processLink cfg) st).failed = st.failed := by
  induction links generalizing st with
  | nil => rfl
  | cons l ls ih => rw [List.foldl_cons, ih, processLink_failed]

theorem foldl_processLink_cache (cfg : CrawlCfg) (links : List α)
    (st : CrawlState α) :
    (links.foldl (processLink cfg) st).cache = st.cache := by
  induction links generalizing st with
  | nil => rfl
  | cons l ls ih => rw [List.foldl_cons, ih, processLink_cache]

theorem crawlLoop_of_not_guard (fetch : α → FetchOutcome α) (cfg : CrawlCfg)
    (n : Nat) (st : CrawlState α) (h : ¬ loopGuard cfg st) :
    crawlLoop fetch cfg n st = st := by
  cases n with
  | zero => rfl
  | succ m => rw [crawlLoop, if_neg h]

/-! #### Invariant: failed URLs are visited (claim C10) -/

theorem processResult_keeps_failed_subset (fetch : α → FetchOutcome α)
    (cfg : CrawlCfg) (st : CrawlState α) (u : α)
    (h : st.failed ⊆ st.visited) :
    (processResult fetch cfg st u).failed ⊆ (processResult fetch cfg st u).visited := by
  intro x hx
  unfold processResult at hx ⊢
  cases hr : (fetch u).redirectTo <;> cases hp : (fetch u).page <;>
    simp only [hr, hp] at hx ⊢
  case none.none | some.none =>
    rcases mem_of_mem_listInsert hx with rfl | hx'
    · exact mem_listInsert_self _ _
    · exact mem_listInsert (h hx')
  case none.some page | some.some page =>
    rw [foldl_processLink_failed] at hx
    rw [foldl_processLink_visited]
    split_ifs at hx ⊢ <;> first
      | exact mem_listInsert (mem_listInsert (h hx))
      | exact mem_listInsert (h hx)

theorem foldl_processResult_keeps_failed_subset (fetch : α → FetchOutcome α)
    (cfg : CrawlCfg) (urls : List α) (st : CrawlState α)
    (h : st.failed ⊆ st.visited) :
    (urls.foldl (processResult fetch cfg) st).failed
      ⊆ (urls.foldl (processResult fetch cfg) st).visited := by
  induction urls generalizing st with
  | nil => exact h
  | cons u us ih =>
    rw [List.foldl_cons]
    exact ih _ (processResult_keeps_failed_subset fetch cfg st u h)

theorem crawlStep_keeps_failed_subset {fetch : α → FetchOutcome α}
    {cfg : CrawlCfg} {s s' : CrawlState α} (hstep : CrawlStep fetch cfg s s')
    (h : s.failed ⊆ s.visited) : s'.failed ⊆ s'.visited := by
  obtain ⟨-, batch, -, -, -, rfl⟩ := hstep
  exact foldl_processResult_keeps_failed_subset fetch cfg _ _ h

/-- C10: in every reachable state of the crawl loop, the failed set is a
subset of the visited set — a dispatched URL is marked visited before its
result is inspected, and only dispatched URLs can be marked failed, so at
termination `failed_urls ⊆ visited_urls`. -/
theorem c10_failed_subset_visited (fetch : α → FetchOutcome α) (cfg : CrawlCfg)
    (start : α) (s : CrawlState α) (h : Reachable fetch cfg start s) :
    s.failed ⊆ s.visited := by
  induction h with
  | refl => intro x hx; simp [initState] at hx
  | tail _ hstep ih => exact crawlStep_keeps_failed_subset hstep ih

/-! #### Redirect-cache suppression (claim C5) -/

theorem cacheLookup_mem {c : List (α × α)} {k v : α}
    (h : cacheLookup c k = some v) : (k, v) ∈ c := by
  unfold cacheLookup at h
  cases hf : c.find? (fun p => p.1 = k) with
  | none => rw [hf] at h; simp at h
  | some p =>
    rw [hf] at h
    have hm := List.mem_of_find?_eq_some hf
    have hk : p.1 = k := by simpa using List.find?_some hf
    have hv : p.2 = v := by simpa using h
    have : p = (k, v) := by cases p; simp_all
    rw [← this]; exact hm

theorem find?_key_map_replace (c : List (α × α)) (u v k : α) (hne : u ≠ k) :
    ((c.map fun p => if p.1 = u then (u, v) else p).find? fun p => p.1 = k)
      = c.find? fun p => p.1 = k := by
  induction c with
  | nil => rfl
  | cons p ps ih =>
    by_cases hpu : p.1 = u
    · simp only [List.map_cons, if_pos hpu, List.find?]
      rw [show (decide (u = k)) = false by simp [hne],
          show (decide (p.1 = k)) = false by simp [hpu, hne]]
      exact ih
    · simp only [List.map_cons, if_neg hpu, List.find?]
      cases hpk : decide (p.1 = k) <;> simp [ih]

theorem cacheLookup_cacheInsert_ne {c : List (α × α)} {u v k : α}
    (hne : u ≠ k) : cacheLookup (cacheInsert u v c) k = cacheLookup c k := by
  unfold cacheInsert cacheLookup
  split_ifs with hany
  · rw [find?_key_map_replace c u v k hne]
  · rw [List.find?_append]
    have : ([(u, v)].find? fun p => p.1 = k) = none := by
      simp [List.find?, hne]
    rw [this]
    cases c.find? fun p => p.1 = k <;> rfl

theorem mem_queue_processLink {cfg : CrawlCfg} {st : CrawlState α} {l x : α}
    (hx : x ∈ (processLink cfg st l).queue) :
    x ∈ st.queue
    ∨ (x = l ∧ ¬ ∃ p ∈ st.cache, l = p.2 ∧ p.1 ∈ st.visited) := by
  simp only [processLink] at hx
  split_ifs at hx with h1 h2
  · rcases List.mem_append.1 hx with h | h
    · exact Or.inl h
    · simp only [List.mem_singleton] at h
      exact Or.inr ⟨h, h2.1⟩
  · exact Or.inl hx
  · exact Or.inl hx

theorem foldl_processLink_inv (cfg : CrawlCfg) (links : List α)
    (st : CrawlState α) {c L : α} {Q : Prop}
    (h1 : c ∈ st.visited) (h2 : cacheLookup st.cache c = some L)
    (h3 : L ∈ st.queue → Q) :
    c ∈ (links.foldl (processLink cfg) st).visited
    ∧ cacheLookup (links.foldl (processLink cfg) st).cache c = some L
    ∧ ((L ∈ (links.foldl (processLink cfg) st).queue) → Q) := by
  induction links generalizing st with
  | nil => exact ⟨h1, h2, h3⟩
  | cons l ls ih =>
    rw [List.foldl_cons]
    apply ih
    · rw [processLink_visited]; exact h1
    · rw [processLink_cache]; exact h2
    · intro hL
      rcases mem_queue_processLink hL with hL' | ⟨rfl, hnodup⟩
      · exact h3 hL'
      · exact absurd ⟨(c, L), cacheLookup_mem h2, rfl, h1⟩ hnodup

theorem processResult_inv (fetch : α → FetchOutcome α) (cfg : CrawlCfg)
    (st : CrawlState α) (u : α) {c L : α} {Q : Prop} (hne : u ≠ c)
    (h1 : c ∈ st.visited) (h2 : cacheLookup st.cache c = some L)
    (h3 : L ∈ st.queue → Q) :
    c ∈ (processResult fetch cfg st u).visited
    ∧ cacheLookup (processResult fetch cfg st u).cache c = some L
    ∧ ((L ∈ (processResult fetch cfg st u).queue) → Q) := by
  unfold processResult
  cases hr : (fetch u).redirectTo <;> cases hp : (fetch u).page <;>
    simp only [hr, hp]
  case none.none =>
    exact ⟨mem_listInsert h1, h2, h3⟩
  case some.none =>
    exact ⟨mem_listInsert h1, by rw [cacheLookup_cacheInsert_ne hne]; exact h2, h3⟩
  case none.some page =>
    split_ifs with hfin
    · exact foldl_processLink_inv cfg page.links _
        (mem_listInsert (mem_listInsert h1)) h2 h3
    · exact foldl_processLink_inv cfg page.links _ (mem_listInsert h1) h2 h3
  case some.some page =>
    split_ifs with hfin
    · exact foldl_processLink_inv cfg page.links _
        (mem_listInsert (mem_listInsert h1))
        (by rw [cacheLookup_cacheInsert_ne hne]; exact h2) h3
    · exact foldl_processLink_inv cfg page.links _ (mem_listInsert h1)
        (by rw [cacheLookup_cacheInsert_ne hne]; exact h2) h3

theorem foldl_processResult_inv (fetch : α → FetchOutcome α) (cfg : CrawlCfg)
    (urls : List α) (st : CrawlState α) {c L : α} {Q : Prop}
    (hall : ∀ u ∈ urls, u ≠ c)
    (h1 : c ∈ st.visited) (h2 : cacheLookup st.cache c = some L)
    (h3 : L ∈ st.queue → Q) :
    (L ∈ (urls.foldl (processResult fetch cfg) st).queue) → Q := by
  induction urls generalizing st with
  | nil => exact h3
  | cons u us ih =>
    rw [List.foldl_cons]
    obtain ⟨g1, g2, g3⟩ := processResult_inv fetch cfg st u
      (hall u (List.mem_cons_self u us)) h1 h2 h3
    exact ih _ (fun v hv => hall v (List.mem_cons_of_mem u hv)) g1 g2 g3

/-- C5: a crawl-loop step never enqueues a URL that is recorded in the
redirect cache as the redirect target of an already-visited URL — if a
step adds `L` to the frontier, then before the step no visited URL had
`L` as its cached redirect target.  (Equivalently, a URL that
301-redirects to an already-visited URL is never re-enqueued: the
suppression check of lines 1845-1851 is consulted at every enqueue
point, and the cache entry and visited mark of the redirecting URL both
predate any enqueue decision taken after it was processed.) -/
theorem c5_redirect_target_never_enqueued (fetch : α → FetchOutcome α)
    (cfg : CrawlCfg) (s s' : CrawlState α) (L : α)
    (hstep : CrawlStep fetch cfg s s') (hq' : L ∈ s'.queue) (hq : L ∉ s.queue) :
    ¬ ∃ c, c ∈ s.visited ∧ cacheLookup s.cache c = some L := by
  rintro ⟨c, hcv, hcl⟩
  obtain ⟨-, batch, -, -, -, rfl⟩ := hstep
  simp only [processBatch] at hq'
  refine hq (foldl_processResult_inv fetch cfg
    (batch.filter fun u => decide (u ∉ s.visited ∧ u ∉ s.failed))
    { s with queue := s.queue.filter fun u => decide (u ∉ batch) }
    ?_ hcv hcl ?_ hq')
  · intro u hu
    have hnv : u ∉ s.visited := by
      have := (List.mem_filter.1 hu).2
      simp only [decide_eq_true_eq] at this
      exact this.1
    intro huc; exact hnv (huc ▸ hcv)
  · intro hLf
    exact List.mem_of_mem_filter hLf

/-! #### Per-URL failure handling (claim C6) -/

theorem processResult_fail_eq (fetch : α → FetchOutcome α) (cfg : CrawlCfg)
    (st : CrawlState α) (u : α) (h : (fetch u).page = none) :
    processResult fetch cfg st u
      = { st with visited := listInsert u st.visited,
                  cache := match (fetch u).redirectTo with
                           | some r => cacheInsert u r st.cache
                           | none => st.cache,
                  failed := listInsert u st.failed } := by
  unfold processResult
  cases hr : (fetch u).redirectTo <;> simp [h, hr]

/-- C6: no per-URL error escapes `crawl_website`.  First conjunct: every
processed URL whose fetch failed (a `None` result or an exception,
`page = none` in the model) is recorded in the failed set and contributes
no page, and the loop goes on with the next future.  Second conjunct:
when the start URL itself cannot be fetched, the loop terminates after
its first iteration (whatever extra fuel is supplied) and the call
returns normally with an empty pages list, the start URL in `failed`,
and `stats.urlsFailed = 1`. -/
theorem c6_no_error_escapes (fetch : α → FetchOutcome α) (cfg : CrawlCfg)
    (start : α) (hp : 0 < cfg.maxPages) (hw : 0 < cfg.maxWorkers)
    (hfail : (fetch start).page = none) :
    (∀ (st : CrawlState α) (u : α), (fetch u).page = none →
        (processResult fetch cfg st u).failed = listInsert u st.failed
        ∧ (processResult fetch cfg st u).pages = st.pages)
    ∧ ∀ n : Nat,
        ¬ loopGuard cfg (crawlLoop fetch cfg (n + 1) (initState start))
        ∧ (crawlLoop fetch cfg (n + 1) (initState start)).pages = []
        ∧ (crawlLoop fetch cfg (n + 1) (initState start)).failed = [start]
        ∧ (mkStats (crawlLoop fetch cfg (n + 1) (initState start))).urls_failed = 1 := by
  constructor
  · intro st u hu
    rw [processResult_fail_eq fetch cfg st u hu]
    exact ⟨rfl, rfl⟩
  · intro n
    have hkey : (processBatch fetch cfg (initState start) [start]).queue = []
        ∧ (processBatch fetch cfg (initState start) [start]).pages = []
        ∧ (processBatch fetch cfg (initState start) [start]).failed = [start] := by
      unfold processBatch
      cases hr : (fetch start).redirectTo <;>
        simp [initState, processResult, hfail, hr, listInsert]
    have hbatchtake : (initState start).queue.take cfg.maxWorkers = [start] := by
      have hlen : ([start] : List α).length ≤ cfg.maxWorkers := by simpa using hw
      simpa [initState] using List.take_of_length_le hlen
    have hguard : loopGuard cfg (initState start) :=
      ⟨by simp [initState], by simpa [initState] using hp⟩
    have hnotguard : ¬ loopGuard cfg (processBatch fetch cfg (initState start) [start]) := by
      intro hg
      exact hg.1 hkey.1
    have hloop : crawlLoop fetch cfg (n + 1) (initState start)
        = processBatch fetch cfg (initState start) [start] := by
      rw [crawlLoop, if_pos hguard, hbatchtake]
      exact crawlLoop_of_not_guard fetch cfg n _ hnotguard
    rw [hloop]
    refine ⟨hnotguard, hkey.2.1, hkey.2.2, ?_⟩
    simp [mkStats, hkey.2.2]

/-! #### Concrete instances used as witnesses: a one-step crawl whose
start page links to the single URL `1` -/

def wFetch : Nat → FetchOutcome Nat :=
  fun u => ⟨none, some ⟨u, if u = 0 then [1] else []⟩⟩

def wCfg : CrawlCfg := ⟨5, 5⟩

def wNext : CrawlState Nat := processBatch wFetch wCfg (initState 0) [0]

theorem wStep : CrawlStep wFetch wCfg (initState 0) wNext :=
  ⟨by decide, [0], by decide, by decide, by decide, rfl⟩

/-- Witness for `c5_redirect_target_never_enqueued`: the first step of
the one-link crawl enqueues URL `1`, and indeed no visited URL of the
initial state has it as a cached redirect target. -/
theorem c5_redirect_target_never_enqueued_witness :
    ¬ ∃ c, c ∈ (initState (0 : Nat)).visited
        ∧ cacheLookup (initState (0 : Nat)).cache c = some 1 :=
  c5_redirect_target_never_enqueued wFetch wCfg (initState 0) wNext 1
    wStep (by decide) (by decide)

/-- Witness for `c10_failed_subset_visited` at the state reached by one
concrete step. -/
theorem c10_failed_subset_visited_witness : wNext.failed ⊆ wNext.visited :=
  c10_failed_subset_visited wFetch wCfg 0 wNext
    (Relation.ReflTransGen.single wStep)

/-- Witness for `c6_no_error_escapes`: a crawl whose start URL fails
returns no pages and one failed URL. -/
def c6Fetch : Nat → FetchOutcome Nat := fun _ => ⟨none, none⟩

theorem c6_no_error_escapes_witness :
    (crawlLoop c6Fetch wCfg 1 (initState (0 : Nat))).pages = []
    ∧ (crawlLoop c6Fetch wCfg 1 (initState (0 : Nat))).failed = [0] :=
  ⟨((c6_no_error_escapes c6Fetch wCfg 0 (by decide) (by decide) rfl).2 0).2.1,
   ((c6_no_error_escapes c6Fetch wCfg 0 (by decide) (by decide) rfl).2 0).2.2.1⟩

/-! #### The C1 scenario: `maxPages = 5`, a start page linking to 20
distinct valid internal URLs, none failing and none redirecting -/

def c1Links : List Nat :=
  [1, 2, 3, 4, 5, 6, 7, 8, 9, 10, 11, 12, 13, 14, 15, 16, 17, 18, 19, 20]

/-- Fetch oracle of the C1 scenario: the start URL `0` succeeds with the
20 links, every link page succeeds with no links, nothing redirects. -/
def c1Fetch : Nat → FetchOutcome Nat :=
  fun u => ⟨none, some ⟨u, if u = 0 then c1Links else []⟩⟩

/-- The claim's configuration: `maxPages = 5` with the source's default
`maxWorkers = 5`. -/
def c1Cfg : CrawlCfg := ⟨5, 5⟩

/-- Result of the C1 crawl (two guarded iterations; the third fuel unit
only observes that the guard is false). -/
def c1Final : CrawlState Nat := crawlLoop c1Fetch c1Cfg 3 (initState 0)

/-- The same scenario with `maxWorkers = 1`, where batches are singletons
and the cap is exact. -/
def c1CfgW1 : CrawlCfg := ⟨5, 1⟩

def c1FinalW1 : CrawlState Nat := crawlLoop c1Fetch c1CfgW1 6 (initState 0)

/-- C1 counterexample: in the claim's scenario the crawl does not visit
exactly 5 URLs — the loop guard is only evaluated between batches, so
the second batch of `maxWorkers = 5` URLs is dispatched while only one
URL is visited and overshoots the cap: the terminal state (the guard is
false on it) has 6 visited URLs and 6 crawled pages over 20 discovered
links. -/
theorem c1_counterexample :
    ¬ loopGuard c1Cfg c1Final
    ∧ c1Final.visited.length = 6
    ∧ (mkStats c1Final).pages_crawled = 6
    ∧ (mkStats c1Final).total_unique_links = 20
    ∧ ¬ (c1Final.visited.length = 5 ∧ (mkStats c1Final).coverage = 5 / 20) :=
  ⟨by decide, by decide, by decide, by decide,
   fun h => (by decide : ¬ c1Final.visited.length = 5) h.1⟩

/-- C1 amended: the main loop executes only while the queue is non-empty
and the number of visited URLs is strictly below `maxPages` (the guard is
part of every step); but a dispatched batch can overshoot the cap, so the
scenario with the default `maxWorkers = 5` visits exactly 6 URLs and
reports `coverageRatio = 6/20`; with `maxWorkers = 1` the same scenario
visits exactly 5 URLs and reports `coverageRatio = 5/20`. -/
theorem c1_loop_guard_and_cap_overshoot :
    (∀ (β : Type) [DecidableEq β] (fetch : β → FetchOutcome β)
        (cfg : CrawlCfg) (s s' : CrawlState β),
        CrawlStep fetch cfg s s' → loopGuard cfg s)
    ∧ (¬ loopGuard c1Cfg c1Final ∧ c1Final.visited.length = 6
        ∧ (mkStats c1Final).coverage = 6 / 20)
    ∧ (¬ loopGuard c1CfgW1 c1FinalW1 ∧ c1FinalW1.visited.length = 5
        ∧ (mkStats c1FinalW1).coverage = 5 / 20) := by
  refine ⟨fun β _ fetch cfg s s' hst => hst.1, ⟨by decide, by decide, ?_⟩,
    ⟨by decide, by decide, ?_⟩⟩
  · have h1 : c1Final.pages.length = 6 := by decide
    have h2 : c1Final.allLinks.length = 20 := by decide
    simp only [mkStats, h1, h2]
    norm_num
  · have h1 : c1FinalW1.pages.length = 5 := by decide
    have h2 : c1FinalW1.allLinks.length = 20 := by decide
    simp only [mkStats, h1, h2]
    norm_num

/-- Witness for `c1_loop_guard_and_cap_overshoot`: its guard component
applied to the concrete step `wStep` recovers that the pre-step state
satisfies the loop guard. -/
theorem c1_loop_guard_witness : loopGuard wCfg (initState (0 : Nat)) :=
  c1_loop_guard_and_cap_overshoot.1 Nat wFetch wCfg (initState 0) wNext wStep

end Crawl

end BeanO
